import Mathlib

/-!
Verification of the A2A demo agent protocol.

Shallow embedding of the repository's data model and operations:
`models/jsonrpc.py`, `models/task.py`, `models/agent_card.py`,
`agents/base_agent.py`, `agents/orchestrator_agent.py`,
`client/a2a_client.py`.

Modelling conventions:
- Python dict/JSON wire values are the inductive `Json`; a Python `None`
  stored in an `Any`-typed slot is `Json.null`, while an `Optional[...]`
  dataclass field holding `None` is `Option.none` (so an `Option Json`
  field never holds `some Json.null` for a Python-representable value).
- `datetime.utcnow()` timestamps are naturals drawn from a per-agent
  monotone clock (`AgentState.clock`): ISO-8601 UTC strings compare the
  same way their instants do.
- A Python function that can raise returns `Except`/`Option`; a handler
  raise carries the state at the raise point, mirroring the fact that
  in-place mutations made before an escaping exception persist.
-/

namespace A2ADemo

/-- JSON-like values exchanged between agents (Python dicts/lists/scalars). -/
inductive Json where
  | null : Json
  | bool (b : Bool) : Json
  | num (n : Int) : Json
  | str (s : String) : Json
  | arr (items : List Json) : Json
  | obj (fields : List (String × Json)) : Json

mutual

/-- Decidable equality on `Json` (not derivable for a nested inductive). -/
def Json.decEq : (a b : Json) → Decidable (a = b)
  | .null, .null => isTrue rfl
  | .null, .bool _ => isFalse (fun h => Json.noConfusion h)
  | .null, .num _ => isFalse (fun h => Json.noConfusion h)
  | .null, .str _ => isFalse (fun h => Json.noConfusion h)
  | .null, .arr _ => isFalse (fun h => Json.noConfusion h)
  | .null, .obj _ => isFalse (fun h => Json.noConfusion h)
  | .bool _, .null => isFalse (fun h => Json.noConfusion h)
  | .bool a, .bool b =>
      match Bool.decEq a b with
      | isTrue h => isTrue (by rw [h])
      | isFalse h => isFalse (fun hh => h (by injection hh))
  | .bool _, .num _ => isFalse (fun h => Json.noConfusion h)
  | .bool _, .str _ => isFalse (fun h => Json.noConfusion h)
  | .bool _, .arr _ => isFalse (fun h => Json.noConfusion h)
  | .bool _, .obj _ => isFalse (fun h => Json.noConfusion h)
  | .num _, .null => isFalse (fun h => Json.noConfusion h)
  | .num _, .bool _ => isFalse (fun h => Json.noConfusion h)
  | .num a, .num b =>
      match Int.decEq a b with
      | isTrue h => isTrue (by rw [h])
      | isFalse h => isFalse (fun hh => h (by injection hh))
  | .num _, .str _ => isFalse (fun h => Json.noConfusion h)
  | .num _, .arr _ => isFalse (fun h => Json.noConfusion h)
  | .num _, .obj _ => isFalse (fun h => Json.noConfusion h)
  | .str _, .null => isFalse (fun h => Json.noConfusion h)
  | .str _, .bool _ => isFalse (fun h => Json.noConfusion h)
  | .str _, .num _ => isFalse (fun h => Json.noConfusion h)
  | .str a, .str b =>
      match String.decEq a b with
      | isTrue h => isTrue (by rw [h])
      | isFalse h => isFalse (fun hh => h (by injection hh))
  | .str _, .arr _ => isFalse (fun h => Json.noConfusion h)
  | .str _, .obj _ => isFalse (fun h => Json.noConfusion h)
  | .arr _, .null => isFalse (fun h => Json.noConfusion h)
  | .arr _, .bool _ => isFalse (fun h => Json.noConfusion h)
  | .arr _, .num _ => isFalse (fun h => Json.noConfusion h)
  | .arr _, .str _ => isFalse (fun h => Json.noConfusion h)
  | .arr xs, .arr ys =>
      match Json.decEqList xs ys with
      | isTrue h => isTrue (by rw [h])
      | isFalse h => isFalse (fun hh => h (by injection hh))
  | .arr _, .obj _ => isFalse (fun h => Json.noConfusion h)
  | .obj _, .null => isFalse (fun h => Json.noConfusion h)
  | .obj _, .bool _ => isFalse (fun h => Json.noConfusion h)
  | .obj _, .num _ => isFalse (fun h => Json.noConfusion h)
  | .obj _, .str _ => isFalse (fun h => Json.noConfusion h)
  | .obj _, .arr _ => isFalse (fun h => Json.noConfusion h)
  | .obj xs, .obj ys =>
      match Json.decEqFields xs ys with
      | isTrue h => isTrue (by rw [h])
      | isFalse h => isFalse (fun hh => h (by injection hh))

/-- Decidable equality on lists of `Json`. -/
def Json.decEqList : (xs ys : List Json) → Decidable (xs = ys)
  | [], [] => isTrue rfl
  | [], _ :: _ => isFalse (fun h => List.noConfusion h)
  | _ :: _, [] => isFalse (fun h => List.noConfusion h)
  | x :: xs, y :: ys =>
      match Json.decEq x y with
      | isTrue h1 =>
          match Json.decEqList xs ys with
          | isTrue h2 => isTrue (by rw [h1, h2])
          | isFalse h2 => isFalse (fun hh => h2 (by injection hh))
      | isFalse h1 => isFalse (fun hh => h1 (by injection hh))

/-- Decidable equality on `Json` object field lists. -/
def Json.decEqFields : (xs ys : List (String × Json)) → Decidable (xs = ys)
  | [], [] => isTrue rfl
  | [], _ :: _ => isFalse (fun h => List.noConfusion h)
  | _ :: _, [] => isFalse (fun h => List.noConfusion h)
  | (k1, v1) :: xs, (k2, v2) :: ys =>
      match String.decEq k1 k2 with
      | isTrue hk =>
          match Json.decEq v1 v2 with
          | isTrue hv =>
              match Json.decEqFields xs ys with
              | isTrue ht => isTrue (by rw [hk, hv, ht])
              | isFalse ht => isFalse (fun hh => ht (by injection hh))
          | isFalse hv =>
              isFalse (fun hh => hv (by
                injection hh with h1 h2
                exact congrArg Prod.snd h1))
      | isFalse hk =>
          isFalse (fun hh => hk (by
            injection hh with h1 h2
            exact congrArg Prod.fst h1))

end

instance : DecidableEq Json := Json.decEq

/-- First-match association lookup, i.e. Python `dict.__getitem__` /
`dict.get` on the ordered field list of an object. -/
def jAssoc : List (String × Json) → String → Option Json
  | [], _ => none
  | (k, v) :: rest, key => if k = key then some v else jAssoc rest key

/-- `d.get(key)` on an object; `none` on a missing key or a non-object. -/
def Json.lookup? : Json → String → Option Json
  | .obj fs, key => jAssoc fs key
  | _, _ => none

/-- Python `key in d`. -/
def Json.hasKey (j : Json) (key : String) : Bool :=
  (j.lookup? key).isSome

/-- `d.get(key)` for an `Optional` destination field: a stored JSON `null`
is the same Python object `None` as a missing key. -/
def Json.getOpt (j : Json) (key : String) : Option Json :=
  match j.lookup? key with
  | some v => if v = .null then none else some v
  | none => none

/-- Python truthiness of a JSON value. -/
def Json.truthy : Json → Bool
  | .null => false
  | .bool b => b
  | .num n => n != 0
  | .str s => s != ""
  | .arr xs => !xs.isEmpty
  | .obj fs => !fs.isEmpty

/-- Extract a string, failing on any other shape. -/
def Json.asStr? : Json → Option String
  | .str s => some s
  | _ => none

/-- Extract an integer, failing on any other shape. -/
def Json.asInt? : Json → Option Int
  | .num n => some n
  | _ => none

/-- Extract a non-negative integer (a timestamp), failing otherwise. -/
def Json.asNat? : Json → Option Nat
  | .num n => if 0 ≤ n then some n.toNat else none
  | _ => none

/-! ## models/task.py -/

/-- Python list-comprehension over a fallible element parse: all elements
must parse, else the comprehension raises. -/
def mapOpt {α β : Type} (f : α → Option β) : List α → Option (List β)
  | [] => some []
  | x :: xs => do
      let y ← f x
      let ys ← mapOpt f xs
      pure (y :: ys)

/-- `MessageRole`: message role in a conversation. -/
inductive MessageRole where
  | user : MessageRole
  | agent : MessageRole
  | system : MessageRole
deriving DecidableEq

/-- `MessageRole.value`. -/
def MessageRole.value : MessageRole → String
  | .user => "user"
  | .agent => "agent"
  | .system => "system"

/-- `MessageRole(s)`: the enum constructor, `none` models the `ValueError`
raised on an unknown value. -/
def MessageRole.ofString? : String → Option MessageRole
  | "user" => some .user
  | "agent" => some .agent
  | "system" => some .system
  | _ => none

/-- `TaskStatus`: task status values. -/
inductive TaskStatus where
  | pending : TaskStatus
  | in_progress : TaskStatus
  | completed : TaskStatus
  | failed : TaskStatus
  | cancelled : TaskStatus
deriving DecidableEq

/-- `TaskStatus.value`. -/
def TaskStatus.value : TaskStatus → String
  | .pending => "pending"
  | .in_progress => "in_progress"
  | .completed => "completed"
  | .failed => "failed"
  | .cancelled => "cancelled"

/-- `TaskStatus(s)`: the enum constructor. -/
def TaskStatus.ofString? : String → Option TaskStatus
  | "pending" => some .pending
  | "in_progress" => some .in_progress
  | "completed" => some .completed
  | "failed" => some .failed
  | "cancelled" => some .cancelled
  | _ => none

/-- `TaskMessage`: a message in a task conversation. After `__post_init__`
the timestamp is always set, so it is a plain `Nat` here. -/
structure TaskMessage where
  role : MessageRole
  content : String
  timestamp : Nat
  metadata : Option Json
deriving DecidableEq

/-- `TaskMessage(...)` followed by `__post_init__`: a missing timestamp is
filled with the current time. -/
def TaskMessage.make (role : MessageRole) (content : String)
    (timestamp : Option Nat) (metadata : Option Json) (now : Nat) : TaskMessage :=
  { role := role, content := content, timestamp := timestamp.getD now,
    metadata := metadata }

/-- `TaskMessage.to_dict`. `"metadata": self.metadata or {}` uses Python
truthiness: a falsy (or absent) metadata serializes as the empty object. -/
def TaskMessage.toDict (m : TaskMessage) : Json :=
  .obj [("role", .str m.role.value),
        ("content", .str m.content),
        ("timestamp", .num m.timestamp),
        ("metadata", match m.metadata with
                     | some j => if j.truthy then j else .obj []
                     | none => .obj [])]

/-- `TaskMessage.from_dict`; `none` models the `KeyError`/`ValueError`
raised on a missing or ill-typed required field. -/
def TaskMessage.fromDict (now : Nat) (d : Json) : Option TaskMessage := do
  let roleJ ← d.lookup? "role"
  let roleS ← roleJ.asStr?
  let role ← MessageRole.ofString? roleS
  let contentJ ← d.lookup? "content"
  let content ← contentJ.asStr?
  let timestamp ← match d.getOpt "timestamp" with
                  | some j => j.asNat?
                  | none => some now
  pure { role := role, content := content, timestamp := timestamp,
         metadata := d.getOpt "metadata" }

/-- `Task`: a task in the A2A protocol. After `__post_init__` both
timestamps are always set. -/
structure Task where
  task_id : String
  status : TaskStatus
  messages : List TaskMessage
  metadata : Option Json
  created_at : Nat
  updated_at : Nat
deriving DecidableEq

/-- `Task.add_message`: append and refresh `updated_at`. -/
def Task.add_message (t : Task) (m : TaskMessage) (now : Nat) : Task :=
  { t with messages := t.messages ++ [m], updated_at := now }

/-- `Task.to_dict`. -/
def Task.toDict (t : Task) : Json :=
  .obj [("task_id", .str t.task_id),
        ("status", .str t.status.value),
        ("messages", .arr (t.messages.map TaskMessage.toDict)),
        ("metadata", match t.metadata with
                     | some j => if j.truthy then j else .obj []
                     | none => .obj []),
        ("created_at", .num t.created_at),
        ("updated_at", .num t.updated_at)]

/-- `Task.from_dict`. -/
def Task.fromDict (now : Nat) (d : Json) : Option Task := do
  let msgsJ := match d.lookup? "messages" with
               | some j => j
               | none => .arr []
  let msgItems ← match msgsJ with
                 | .arr xs => some xs
                 | _ => none
  let messages ← mapOpt (TaskMessage.fromDict now) msgItems
  let idJ ← d.lookup? "task_id"
  let task_id ← idJ.asStr?
  let statusJ ← d.lookup? "status"
  let statusS ← statusJ.asStr?
  let status ← TaskStatus.ofString? statusS
  let created_at ← match d.getOpt "created_at" with
                   | some j => j.asNat?
                   | none => some now
  let updated_at ← match d.getOpt "updated_at" with
                   | some j => j.asNat?
                   | none => some now
  pure { task_id := task_id, status := status, messages := messages,
         metadata := d.getOpt "metadata", created_at := created_at,
         updated_at := updated_at }

/-! ## models/agent_card.py -/

/-- `InteractionMode`: supported interaction modes for A2A agents. -/
inductive InteractionMode where
  | text : InteractionMode
  | form : InteractionMode
  | audio : InteractionMode
  | video : InteractionMode
  | file : InteractionMode
deriving DecidableEq

/-- `InteractionMode.value`. -/
def InteractionMode.value : InteractionMode → String
  | .text => "text"
  | .form => "form"
  | .audio => "audio"
  | .video => "video"
  | .file => "file"

/-- `InteractionMode(s)`: the enum constructor. -/
def InteractionMode.ofString? : String → Option InteractionMode
  | "text" => some .text
  | "form" => some .form
  | "audio" => some .audio
  | "video" => some .video
  | "file" => some .file
  | _ => none

/-- `Skill`: a skill that an agent can perform. -/
structure Skill where
  name : String
  description : String
  parameters : Json
  interaction_modes : List InteractionMode
deriving DecidableEq

/-- `Skill.to_dict`. -/
def Skill.toDict (s : Skill) : Json :=
  .obj [("name", .str s.name),
        ("description", .str s.description),
        ("parameters", s.parameters),
        ("interaction_modes",
         .arr (s.interaction_modes.map (fun m => .str m.value)))]

/-- The `InteractionMode(m)` element parse inside `AgentCard.from_dict`
mode-list comprehensions. -/
def parseMode (j : Json) : Option InteractionMode := do
  let s ← j.asStr?
  InteractionMode.ofString? s

/-- The per-skill parsing performed inside `AgentCard.from_dict`. -/
def Skill.fromDict (d : Json) : Option Skill := do
  let nameJ ← d.lookup? "name"
  let name ← nameJ.asStr?
  let descJ ← d.lookup? "description"
  let description ← descJ.asStr?
  let parameters := (d.lookup? "parameters").getD (.obj [])
  let modes ← match d.lookup? "interaction_modes" with
              | none => some [InteractionMode.text]
              | some (.arr xs) => mapOpt parseMode xs
              | some _ => none
  pure { name := name, description := description, parameters := parameters,
         interaction_modes := modes }

/-- `AgentCard`: an agent's capabilities and connection information. -/
structure AgentCard where
  name : String
  description : String
  url : String
  skills : List Skill
  version : String
  supported_interaction_modes : List InteractionMode
  metadata : Option Json
deriving DecidableEq

/-- `AgentCard.to_dict`. -/
def AgentCard.toDict (c : AgentCard) : Json :=
  .obj [("name", .str c.name),
        ("description", .str c.description),
        ("url", .str c.url),
        ("version", .str c.version),
        ("skills", .arr (c.skills.map Skill.toDict)),
        ("supported_interaction_modes",
         .arr (c.supported_interaction_modes.map (fun m => .str m.value))),
        ("metadata", match c.metadata with
                     | some j => if j.truthy then j else .obj []
                     | none => .obj [])]

/-- `AgentCard.from_dict`. -/
def AgentCard.fromDict (d : Json) : Option AgentCard := do
  let skillItems ← match d.lookup? "skills" with
                   | none => some []
                   | some (.arr xs) => some xs
                   | some _ => none
  let skills ← mapOpt Skill.fromDict skillItems
  let nameJ ← d.lookup? "name"
  let name ← nameJ.asStr?
  let descJ ← d.lookup? "description"
  let description ← descJ.asStr?
  let urlJ ← d.lookup? "url"
  let url ← urlJ.asStr?
  let version ← match d.lookup? "version" with
                | none => some "1.0"
                | some j => j.asStr?
  let modes ← match d.lookup? "supported_interaction_modes" with
              | none => some [InteractionMode.text]
              | some (.arr xs) => mapOpt parseMode xs
              | some _ => none
  pure { name := name, description := description, url := url,
         skills := skills, version := version,
         supported_interaction_modes := modes, metadata := d.getOpt "metadata" }

/-! ## models/jsonrpc.py -/

/-- `JSONRPCRequest`: a JSON-RPC 2.0 request. `id` is
`Union[str, int, None]`, so a plain `Json` with `null` for `None`. -/
structure JSONRPCRequest where
  method : String
  params : Option Json := none
  id : Json := .null
  jsonrpc : String := "2.0"
deriving DecidableEq

/-- `JSONRPCRequest.to_dict`: `params` is included only when not `None`. -/
def JSONRPCRequest.toDict (r : JSONRPCRequest) : Json :=
  .obj ([("jsonrpc", .str r.jsonrpc),
         ("method", .str r.method),
         ("id", r.id)] ++
        (match r.params with
         | some p => [("params", p)]
         | none => []))

/-- `JSONRPCRequest.from_dict`; `none` models the `KeyError` on a missing
`method`. -/
def JSONRPCRequest.fromDict (d : Json) : Option JSONRPCRequest := do
  let mJ ← d.lookup? "method"
  let method ← mJ.asStr?
  let jsonrpc ← match d.lookup? "jsonrpc" with
                | none => some "2.0"
                | some j => j.asStr?
  pure { method := method, params := d.getOpt "params",
         id := (d.lookup? "id").getD .null, jsonrpc := jsonrpc }

/-- `JSONRPCError`: a JSON-RPC 2.0 error. -/
structure JSONRPCError where
  code : Int
  message : String
  data : Option Json := none
deriving DecidableEq

/-- `JSONRPCError.to_dict`: `data` is included only when not `None`. -/
def JSONRPCError.toDict (e : JSONRPCError) : Json :=
  .obj ([("code", .num e.code),
         ("message", .str e.message)] ++
        (match e.data with
         | some x => [("data", x)]
         | none => []))

/-- `JSONRPCResponse`: a JSON-RPC 2.0 response. `result` is
`Optional[Any]`, i.e. a plain `Json` with `null` for `None`. -/
structure JSONRPCResponse where
  id : Json
  result : Json := .null
  error : Option JSONRPCError := none
  jsonrpc : String := "2.0"
deriving DecidableEq

/-- `JSONRPCResponse.to_dict`: the `if self.error:` test is Python
truthiness, and a non-`None` dataclass instance is always truthy, so it is
exactly `isSome`; the serialized object carries the `error` key when set,
otherwise the `result` key — never both. -/
def JSONRPCResponse.toDict (r : JSONRPCResponse) : Json :=
  .obj ([("jsonrpc", .str r.jsonrpc),
         ("id", r.id)] ++
        (match r.error with
         | some e => [("error", e.toDict)]
         | none => [("result", r.result)]))

/-- `JSONRPCResponse.from_dict`; the nested error parse fails (`none`) on
a missing `code`/`message`. -/
def JSONRPCResponse.fromDict (d : Json) : Option JSONRPCResponse := do
  let error ← match d.lookup? "error" with
              | none => some none
              | some e => do
                  let codeJ ← e.lookup? "code"
                  let code ← codeJ.asInt?
                  let msgJ ← e.lookup? "message"
                  let message ← msgJ.asStr?
                  some (some { code := code, message := message,
                               data := e.getOpt "data" })
  let jsonrpc ← match d.lookup? "jsonrpc" with
                | none => some "2.0"
                | some j => j.asStr?
  pure { id := (d.lookup? "id").getD .null,
         result := (d.lookup? "result").getD .null,
         error := error, jsonrpc := jsonrpc }

/-- Standard JSON-RPC error codes. -/
def PARSE_ERROR : Int := -32700

def INVALID_REQUEST : Int := -32600

def METHOD_NOT_FOUND : Int := -32601

def INVALID_PARAMS : Int := -32602

def INTERNAL_ERROR : Int := -32603

/-! ## agents/base_agent.py -/

/-- First-match lookup in an insertion-ordered string-keyed store
(Python `dict.get` / `in`; keys are unique in a Python dict). -/
def lookupStr {α : Type} : List (String × α) → String → Option α
  | [], _ => none
  | (k, v) :: rest, key => if k = key then some v else lookupStr rest key

/-- `d[key] = v` on an insertion-ordered Python dict: overwrite in place
when the key exists, append otherwise. -/
def updateStr {α : Type} : List (String × α) → String → α → List (String × α)
  | [], key, v => [(key, v)]
  | (k, w) :: rest, key, v =>
      if k = key then (k, v) :: rest else (k, w) :: updateStr rest key v

/-- The mutable state of a `BaseAgent`: its task store (`self.tasks`)
plus the monotone wall clock feeding `datetime.utcnow()`. -/
structure AgentState where
  tasks : List (String × Task)
  clock : Nat

/-- One `datetime.utcnow()` call: read the clock and advance it. -/
def tick (st : AgentState) : Nat × AgentState :=
  (st.clock, { st with clock := st.clock + 1 })

/-- A registered JSON-RPC method handler. A raise is `Except.error`
carrying the exception text and the state at the raise point (in-place
mutations made before an escaping exception persist). -/
def Handler : Type :=
  Json → AgentState → Except (String × AgentState) (Json × AgentState)

/-- The domain handler `BaseAgent.handle_task` (abstract in the base
class): response text, or the text of the exception it raises. -/
def DomainHandler : Type := String → TaskMessage → Except String String

/-- `BaseAgent._get_agent_card`. -/
def getAgentCardH (card : AgentCard) : Handler :=
  fun _ st => .ok (card.toDict, st)

/-- `BaseAgent._create_task`. `fresh` stands for the `str(uuid.uuid4())`
used when no `task_id` is supplied. -/
def createTaskH (fresh : String) : Handler := fun params st =>
  let task_id := match params.lookup? "task_id" with
                 | some (.str s) => s
                 | _ => fresh
  let metadata : Option Json := match params.lookup? "metadata" with
                                | none => some (.obj [])
                                | some .null => none
                                | some j => some j
  let (now, st1) := tick st
  let task : Task := { task_id := task_id, status := .pending,
                       messages := [], metadata := metadata,
                       created_at := now, updated_at := now }
  .ok (task.toDict, { st1 with tasks := updateStr st1.tasks task_id task })

/-- The `MessageRole(params.get("role", "user"))` step of
`BaseAgent._send_task_message`: default role `user`, `none` for the
`ValueError` on an invalid role value. -/
def paramsRole (params : Json) : Option MessageRole :=
  match params.lookup? "role" with
  | none => some .user
  | some (.str s) => MessageRole.ofString? s
  | some _ => none

/-- `BaseAgent._send_task_message`. Following the source order: the
task-existence check (`if not task_id or task_id not in self.tasks`)
raises first; then the inbound `TaskMessage` is built (an invalid `role`
or a missing `content` raises, still before any mutation); then the
message is appended, the status driven to `in_progress`, the domain
handler run, and exactly one outcome message appended — `agent` role and
`completed` on success, `system` role and `failed` on a handler raise. -/
def sendTaskMessageH (handle : DomainHandler) : Handler := fun params st =>
  match params.lookup? "task_id" with
  | some (.str tid) =>
    if tid = "" then .error ("Task not found", st)
    else
      match lookupStr st.tasks tid with
      | none => .error ("Task " ++ tid ++ " not found", st)
      | some task =>
        match paramsRole params with
        | none => .error ("not a valid MessageRole", st)
        | some role =>
          match params.lookup? "content" with
          | none => .error ("KeyError: content", st)
          | some (.str content) =>
            let (t1, st1) := tick st
            let message : TaskMessage :=
              TaskMessage.make role content none (params.getOpt "metadata") t1
            let (t2, st2) := tick st1
            let task1 := { task.add_message message t2 with
                           status := TaskStatus.in_progress }
            match handle tid message with
            | .ok response_content =>
              let (t3, st3) := tick st2
              let response_message : TaskMessage :=
                TaskMessage.make .agent response_content none none t3
              let (t4, st4) := tick st3
              let task2 := { task1.add_message response_message t4 with
                             status := TaskStatus.completed }
              .ok (task2.toDict,
                   { st4 with tasks := updateStr st4.tasks tid task2 })
            | .error e =>
              let task1f := { task1 with status := TaskStatus.failed }
              let (t3, st3) := tick st2
              let error_message : TaskMessage :=
                TaskMessage.make .system ("Error processing task: " ++ e)
                  none none t3
              let (t4, st4) := tick st3
              let task2 := task1f.add_message error_message t4
              .ok (task2.toDict,
                   { st4 with tasks := updateStr st4.tasks tid task2 })
          | some _ => .error ("content is not a string", st)
  | some _ => .error ("Task not found", st)
  | none => .error ("Task None not found", st)

/-- `BaseAgent._get_task`. -/
def getTaskH : Handler := fun params st =>
  match params.lookup? "task_id" with
  | some (.str tid) =>
    if tid = "" then .error ("Task not found", st)
    else
      match lookupStr st.tasks tid with
      | none => .error ("Task " ++ tid ++ " not found", st)
      | some task => .ok (task.toDict, st)
  | _ => .error ("Task not found", st)

/-- `BaseAgent._list_tasks`. -/
def listTasksH : Handler := fun _ st =>
  .ok (.obj [("tasks", .arr (st.tasks.map (fun kv => kv.2.toDict)))], st)

/-- `BaseAgent._register_standard_methods`: the five standard A2A
methods, in registration order. -/
def standardMethods (card : AgentCard) (fresh : String)
    (handle : DomainHandler) : List (String × Handler) :=
  [("getAgentCard", getAgentCardH card),
   ("createTask", createTaskH fresh),
   ("sendTaskMessage", sendTaskMessageH handle),
   ("getTask", getTaskH),
   ("listTasks", listTasksH)]

/-- `BaseAgent._handle_request`: the dispatcher. Unknown method →
`method_not_found` with the original id; otherwise the handler is invoked
with `params or {}` and any raise is converted to `internal_error` whose
`message` is the exception text (`data` stays unset). -/
def handleRequest (methods : List (String × Handler)) (st : AgentState)
    (req : JSONRPCRequest) : JSONRPCResponse × AgentState :=
  match lookupStr methods req.method with
  | none =>
    ({ id := req.id,
       error := some { code := METHOD_NOT_FOUND,
                       message := "Method " ++ req.method ++ " not found" } },
     st)
  | some handler =>
    match handler (match req.params with
                   | some q => if q.truthy then q else .obj []
                   | none => .obj []) st with
    | .ok (result, st1) => ({ id := req.id, result := result }, st1)
    | .error (e, st1) =>
      ({ id := req.id,
         error := some { code := INTERNAL_ERROR, message := e } }, st1)

/-! ## agents/orchestrator_agent.py -/

/-- Python `needle in haystack` on strings, over character lists:
`charsStart n h` is "n is an initial run of h". -/
def charsStart : List Char → List Char → Bool
  | [], _ => true
  | _ :: _, [] => false
  | a :: ra, b :: rb => a == b && charsStart ra rb

/-- `charsContain n h`: n occurs contiguously somewhere in h. -/
def charsContain (needle : List Char) : List Char → Bool
  | [] => needle.isEmpty
  | b :: rb => charsStart needle (b :: rb) || charsContain needle rb

/-- Python `needle in hay` for strings. -/
def strIn (needle hay : String) : Bool :=
  charsContain needle.data hay.data

/-- Python `s.lower()` (ASCII case folding suffices here). -/
def pyLower (s : String) : String :=
  ⟨s.data.map Char.toLower⟩

/-- Python `s.strip()`: drop leading and trailing whitespace. -/
def pyStrip (s : String) : String :=
  ⟨((s.data.dropWhile Char.isWhitespace).reverse.dropWhile
      Char.isWhitespace).reverse⟩

/-- Python `sep.join(parts)`. -/
def joinSep (sep : String) : List String → String
  | [] => ""
  | [x] => x
  | x :: rest => x ++ sep ++ joinSep sep rest

/-- The arithmetic keyword set of `_orchestrate_task`. -/
def calcKeywords : List String :=
  ["calculate", "solve", "+", "-", "*", "/", "=", "equation"]

/-- The translation keyword set of `_orchestrate_task`. -/
def transKeywords : List String :=
  ["translate", "spanish", "french", "german"]

/-- `OrchestratorAgent.register_agent`. The outcome of the
`requests.post` + `response.json()` pair is the `fetched` argument:
`Except.error` for any transport/JSON failure (the `except` arm), or the
HTTP status code and decoded body. A malformed `result` makes
`AgentCard.from_dict` raise, which the same `except` arm turns into
`False`. -/
def registerAgent (fetched : Except String (Nat × Json))
    (registry : List (String × AgentCard)) :
    Bool × List (String × AgentCard) :=
  match fetched with
  | .error _ => (false, registry)
  | .ok (status, body) =>
    if status = 200 then
      match body.lookup? "result" with
      | some r =>
        match AgentCard.fromDict r with
        | some card => (true, updateStr registry card.name card)
        | none => (false, registry)
      | none => (false, registry)
    else (false, registry)

/-- One skill line of `_list_agents`. -/
def skillLine (s : Skill) : String :=
  "    - " ++ s.name ++ ": " ++ s.description ++ "\n"

/-- One registry entry block of `_list_agents`. -/
def agentEntry (name : String) (card : AgentCard) : String :=
  "**" ++ name ++ "**\n" ++
  "  Description: " ++ card.description ++ "\n" ++
  "  Skills:\n" ++
  String.join (card.skills.map skillLine) ++ "\n"

/-- `OrchestratorAgent._list_agents`. -/
def listAgents (registry : List (String × AgentCard)) : String :=
  if registry.isEmpty then
    "No agents are currently registered. Please register agents using the orchestrator\x27s register_agent() method."
  else
    "I have access to " ++ toString registry.length ++ " agent(s):\n\n" ++
    String.join (registry.map (fun kv => agentEntry kv.1 kv.2))

/-- `OrchestratorAgent._orchestrate_task`. The two keyword tests are
independent ifs; each match delegates when its target agent is
registered; results are joined by a blank line. `delegate` stands for
`_delegate_to_agent` (a nested RPC round trip). -/
def orchestrateTask (registry : List (String × AgentCard))
    (delegate : AgentCard → String → String) (content : String) : String :=
  let results : List String :=
    (if calcKeywords.any (fun w => strIn w content) then
       match lookupStr registry "CalculatorAgent" with
       | some card => ["Calculator: " ++ delegate card content]
       | none => []
     else []) ++
    (if transKeywords.any (fun w => strIn w content) then
       match lookupStr registry "TranslatorAgent" with
       | some card => ["Translator: " ++ delegate card content]
       | none => []
     else [])
  if !results.isEmpty then joinSep "\n\n" results
  else
    "I\x27m not sure which agent can handle this task. Available agents: " ++
    joinSep ", " (registry.map (fun kv => kv.1))

/-- `OrchestratorAgent.handle_task`: normalize (lowercase, strip), answer
discovery phrases from the registry, otherwise route. -/
def orchestratorHandleTask (registry : List (String × AgentCard))
    (delegate : AgentCard → String → String) (content : String) : String :=
  let c := pyStrip (pyLower content)
  if strIn "list agents" c || strIn "discover agents" c ||
      strIn "what agents" c then
    listAgents registry
  else orchestrateTask registry delegate c

/-- The response-extraction loop at the end of
`OrchestratorAgent._delegate_to_agent`, on the already-reversed message
dicts: the first dict whose `role` equals `"agent"` yields its `content`
(`none` models the `KeyError` on a dict missing `role`/`content`);
exhaustion yields the literal fallback. -/
def findLastAgentDict : List Json → Option Json
  | [] => some (.str "No response from agent")
  | d :: rest =>
    match d.lookup? "role" with
    | none => none
    | some (.str s) =>
        if s = "agent" then d.lookup? "content" else findLastAgentDict rest
    | some _ => findLastAgentDict rest

/-- `for msg in reversed(messages)` of `_delegate_to_agent`. -/
def delegateExtract (messages : List Json) : Option Json :=
  findLastAgentDict messages.reverse

/-! ## client/a2a_client.py -/

/-- The response-extraction loop at the end of `A2AClient.chat`, on the
already-reversed typed messages. -/
def findLastAgentMsg : List TaskMessage → String
  | [] => "No response from agent"
  | m :: rest =>
      if m.role = MessageRole.agent then m.content else findLastAgentMsg rest

/-- `for msg in reversed(updated_task.messages)` of `A2AClient.chat`. -/
def chatExtract (messages : List TaskMessage) : String :=
  findLastAgentMsg messages.reverse

/-! ## Store lemmas -/

theorem lookupStr_updateStr_self {α : Type} (l : List (String × α))
    (k : String) (v : α) : lookupStr (updateStr l k v) k = some v := by
  induction l with
  | nil => simp [updateStr, lookupStr]
  | cons kw rest ih =>
    obtain ⟨k1, w⟩ := kw
    by_cases h : k1 = k
    · simp [updateStr, h, lookupStr]
    · simp [updateStr, h, lookupStr, ih]

/-! ## Extraction lemmas (shared by the routing/extraction claims) -/

theorem findLastAgentDict_map (msgs : List TaskMessage) :
    findLastAgentDict (msgs.map TaskMessage.toDict) =
      some (.str (findLastAgentMsg msgs)) := by
  induction msgs with
  | nil => rfl
  | cons m rest ih =>
    cases hr : m.role <;>
      simp [findLastAgentDict, findLastAgentMsg, TaskMessage.toDict,
            Json.lookup?, jAssoc, MessageRole.value, hr, ih]

theorem findLastAgentMsg_append_of_none (l l2 : List TaskMessage)
    (h : ∀ m ∈ l, m.role ≠ MessageRole.agent) :
    findLastAgentMsg (l ++ l2) = findLastAgentMsg l2 := by
  induction l with
  | nil => rfl
  | cons m rest ih =>
    have hm : ¬ m.role = MessageRole.agent := h m (by simp)
    show (if m.role = MessageRole.agent then m.content
          else findLastAgentMsg (rest ++ l2)) = findLastAgentMsg l2
    rw [if_neg hm]
    exact ih (fun m2 hm2 => h m2 (by simp [hm2]))

theorem findLastAgentMsg_no_agent (l : List TaskMessage)
    (h : ∀ m ∈ l, m.role ≠ MessageRole.agent) :
    findLastAgentMsg l = "No response from agent" := by
  induction l with
  | nil => rfl
  | cons m rest ih =>
    have hm : ¬ m.role = MessageRole.agent := h m (by simp)
    show (if m.role = MessageRole.agent then m.content
          else findLastAgentMsg rest) = "No response from agent"
    rw [if_neg hm]
    exact ih (fun m2 hm2 => h m2 (by simp [hm2]))

/-! ## Round-trip lemmas -/

theorem messageRole_value_parse (r : MessageRole) :
    MessageRole.ofString? r.value = some r := by cases r <;> rfl

theorem taskStatus_value_parse (s : TaskStatus) :
    TaskStatus.ofString? s.value = some s := by cases s <;> rfl

theorem parseMode_value (m : InteractionMode) :
    parseMode (.str m.value) = some m := by cases m <;> rfl

theorem mapOpt_parseMode (ms : List InteractionMode) :
    mapOpt parseMode (ms.map (fun m => Json.str m.value)) = some ms := by
  induction ms with
  | nil => rfl
  | cons m rest ih => simp [mapOpt, parseMode_value, ih]

theorem skill_roundtrip (s : Skill) :
    Skill.fromDict (Skill.toDict s) = some s := by
  obtain ⟨n, d, p, ms⟩ := s
  simp [Skill.fromDict, Skill.toDict, Json.lookup?, jAssoc, Json.asStr?,
        mapOpt_parseMode]

theorem mapOpt_skill (ss : List Skill) :
    mapOpt Skill.fromDict (ss.map Skill.toDict) = some ss := by
  induction ss with
  | nil => rfl
  | cons s rest ih => simp [mapOpt, skill_roundtrip, ih]

theorem taskMessage_roundtrip (m : TaskMessage) (j : Json)
    (hm : m.metadata = some j) (hj : j.truthy = true ∨ j = .obj []) :
    TaskMessage.fromDict 0 (TaskMessage.toDict m) = some m := by
  obtain ⟨mr, mc, mt, md⟩ := m
  simp only at hm
  subst hm
  rcases hj with hj | hj
  · have hnull : ¬ j = Json.null := by
      intro h; subst h; simp [Json.truthy] at hj
    simp [TaskMessage.fromDict, TaskMessage.toDict, Json.lookup?, jAssoc,
          Json.asStr?, Json.asNat?, Json.getOpt, hj, hnull,
          messageRole_value_parse]
  · subst hj
    simp [TaskMessage.fromDict, TaskMessage.toDict, Json.lookup?, jAssoc,
          Json.asStr?, Json.asNat?, Json.getOpt, Json.truthy,
          messageRole_value_parse]

theorem mapOpt_taskMessage (msgs : List TaskMessage)
    (h : ∀ m ∈ msgs, ∃ j, m.metadata = some j ∧
           (j.truthy = true ∨ j = .obj [])) :
    mapOpt (TaskMessage.fromDict 0) (msgs.map TaskMessage.toDict) =
      some msgs := by
  induction msgs with
  | nil => rfl
  | cons m rest ih =>
    obtain ⟨j, hm, hj⟩ := h m (by simp)
    simp [mapOpt, taskMessage_roundtrip m j hm hj,
          ih (fun m2 h2 => h m2 (by simp [h2]))]

theorem task_roundtrip (t : Task) (j : Json)
    (hm : t.metadata = some j) (hj : j.truthy = true ∨ j = .obj [])
    (hmsgs : ∀ m ∈ t.messages, ∃ jm, m.metadata = some jm ∧
               (jm.truthy = true ∨ jm = .obj [])) :
    Task.fromDict 0 (Task.toDict t) = some t := by
  obtain ⟨tid, ts, msgs, md, ca, ua⟩ := t
  simp only at hm hmsgs
  subst hm
  have hmm := mapOpt_taskMessage msgs hmsgs
  rcases hj with hj | hj
  · have hnull : ¬ j = Json.null := by
      intro h; subst h; simp [Json.truthy] at hj
    simp [Task.fromDict, Task.toDict, Json.lookup?, jAssoc, Json.asStr?,
          Json.asNat?, Json.getOpt, hj, hnull, hmm,
          taskStatus_value_parse]
  · subst hj
    simp [Task.fromDict, Task.toDict, Json.lookup?, jAssoc, Json.asStr?,
          Json.asNat?, Json.getOpt, Json.truthy, hmm,
          taskStatus_value_parse]

theorem agentCard_roundtrip (c : AgentCard) (j : Json)
    (hm : c.metadata = some j) (hj : j.truthy = true ∨ j = .obj []) :
    AgentCard.fromDict (AgentCard.toDict c) = some c := by
  obtain ⟨n, d, u, sk, v, sm, md⟩ := c
  simp only at hm
  subst hm
  rcases hj with hj | hj
  · have hnull : ¬ j = Json.null := by
      intro h; subst h; simp [Json.truthy] at hj
    simp [AgentCard.fromDict, AgentCard.toDict, Json.lookup?, jAssoc,
          Json.asStr?, Json.getOpt, mapOpt_skill, mapOpt_parseMode, hj,
          hnull]
  · subst hj
    simp [AgentCard.fromDict, AgentCard.toDict, Json.lookup?, jAssoc,
          Json.asStr?, Json.getOpt, mapOpt_skill, mapOpt_parseMode,
          Json.truthy]

theorem request_roundtrip (r : JSONRPCRequest)
    (hp : r.params ≠ some Json.null) :
    JSONRPCRequest.fromDict (JSONRPCRequest.toDict r) = some r := by
  obtain ⟨m, ps, i, v⟩ := r
  simp only at hp
  cases ps with
  | none =>
    simp [JSONRPCRequest.fromDict, JSONRPCRequest.toDict, Json.lookup?,
          jAssoc, Json.asStr?, Json.getOpt]
  | some p =>
    have hnull : ¬ p = Json.null := by intro h; exact hp (by rw [h])
    simp [JSONRPCRequest.fromDict, JSONRPCRequest.toDict, Json.lookup?,
          jAssoc, Json.asStr?, Json.getOpt, hnull]

theorem response_roundtrip (r : JSONRPCResponse)
    (h1 : r.error.isSome = true → r.result = .null)
    (h2 : ∀ e, r.error = some e → e.data ≠ some Json.null) :
    JSONRPCResponse.fromDict (JSONRPCResponse.toDict r) = some r := by
  obtain ⟨i, res, err, v⟩ := r
  simp only at h1 h2
  cases err with
  | none =>
    simp [JSONRPCResponse.fromDict, JSONRPCResponse.toDict, Json.lookup?,
          jAssoc, Json.asStr?, Json.getOpt]
  | some e =>
    have hres : res = Json.null := h1 rfl
    subst hres
    obtain ⟨code, msg, dat⟩ := e
    have hd := h2 { code := code, message := msg, data := dat } rfl
    simp only at hd
    cases dat with
    | none =>
      simp [JSONRPCResponse.fromDict, JSONRPCResponse.toDict,
            JSONRPCError.toDict, Json.lookup?, jAssoc, Json.asStr?,
            Json.asInt?, Json.getOpt]
    | some x =>
      have hnull : ¬ x = Json.null := by intro h; exact hd (by rw [h])
      simp [JSONRPCResponse.fromDict, JSONRPCResponse.toDict,
            JSONRPCError.toDict, Json.lookup?, jAssoc, Json.asStr?,
            Json.asInt?, Json.getOpt, hnull]

/-! ## Claims -/

/-- C9: when the orchestrator registry is empty, routing any content whose
normalized form contains a discovery phrase yields a string containing
"no agents" up to letter case. -/
theorem c9_empty_registry_discovery (delegate : AgentCard → String → String)
    (content : String)
    (h : strIn "list agents" (pyStrip (pyLower content)) = true ∨
         strIn "discover agents" (pyStrip (pyLower content)) = true ∨
         strIn "what agents" (pyStrip (pyLower content)) = true) :
    strIn "no agents" (pyLower (orchestratorHandleTask [] delegate content))
      = true := by
  have hb : (strIn "list agents" (pyStrip (pyLower content)) ||
             strIn "discover agents" (pyStrip (pyLower content)) ||
             strIn "what agents" (pyStrip (pyLower content))) = true := by
    rcases h with h | h | h <;> simp [h]
  simp only [orchestratorHandleTask, hb, if_true]
  decide

/-- Witness for C9 at the message "list agents". -/
theorem c9_witness :
    strIn "no agents"
      (pyLower (orchestratorHandleTask [] (fun _ _ => "") "list agents"))
      = true :=
  c9_empty_registry_discovery (fun _ _ => "") "list agents"
    (Or.inl (by decide))

/-- C7: content matching both keyword sets, with both CalculatorAgent and
TranslatorAgent registered, routes to both, Calculator section first,
joined by a blank line. -/
theorem c7_dual_keyword_routing (registry : List (String × AgentCard))
    (delegate : AgentCard → String → String) (content : String)
    (calcCard transCard : AgentCard)
    (hcalc : calcKeywords.any (fun w => strIn w content) = true)
    (htrans : transKeywords.any (fun w => strIn w content) = true)
    (h1 : lookupStr registry "CalculatorAgent" = some calcCard)
    (h2 : lookupStr registry "TranslatorAgent" = some transCard) :
    orchestrateTask registry delegate content =
      "Calculator: " ++ delegate calcCard content ++ "\n\n" ++
      ("Translator: " ++ delegate transCard content) := by
  simp [orchestrateTask, hcalc, htrans, h1, h2, joinSep]

/-- Witness for C7 at "calculate 2 + 2 and translate hello". -/
theorem c7_witness :
    orchestrateTask
      [("CalculatorAgent",
        { name := "CalculatorAgent", description := "", url := "u1",
          skills := [], version := "1.0",
          supported_interaction_modes := [.text], metadata := none }),
       ("TranslatorAgent",
        { name := "TranslatorAgent", description := "", url := "u2",
          skills := [], version := "1.0",
          supported_interaction_modes := [.text], metadata := none })]
      (fun card _ => card.url) "calculate 2 + 2 and translate hello" =
      "Calculator: u1" ++ "\n\n" ++ ("Translator: u2") :=
  c7_dual_keyword_routing
    [("CalculatorAgent",
      { name := "CalculatorAgent", description := "", url := "u1",
        skills := [], version := "1.0",
        supported_interaction_modes := [.text], metadata := none }),
     ("TranslatorAgent",
      { name := "TranslatorAgent", description := "", url := "u2",
        skills := [], version := "1.0",
        supported_interaction_modes := [.text], metadata := none })]
    (fun card _ => card.url) "calculate 2 + 2 and translate hello"
    { name := "CalculatorAgent", description := "", url := "u1",
      skills := [], version := "1.0",
      supported_interaction_modes := [.text], metadata := none }
    { name := "TranslatorAgent", description := "", url := "u2",
      skills := [], version := "1.0",
      supported_interaction_modes := [.text], metadata := none }
    (by decide) (by decide) (by decide) (by decide)

/-- C8 (amended: the shared fallback literal is "No response from agent",
capital N): the client chat extraction and the orchestrator delegate
extraction compute the same operation — on the serialized messages of any
task the delegate loop returns exactly the chat loop's answer; both
return the most recent agent-role message's content and fall back to the
literal "No response from agent" when no agent-role message exists. -/
theorem c8_extraction_equivalence :
    (∀ t : Task, ∃ msgs : List Json,
       t.toDict.lookup? "messages" = some (.arr msgs) ∧
       delegateExtract msgs = some (.str (chatExtract t.messages))) ∧
    (∀ msgs : List TaskMessage,
       (∀ m ∈ msgs, m.role ≠ MessageRole.agent) →
       chatExtract msgs = "No response from agent") ∧
    (∀ (pre post : List TaskMessage) (m : TaskMessage),
       m.role = MessageRole.agent →
       (∀ m2 ∈ post, m2.role ≠ MessageRole.agent) →
       chatExtract (pre ++ m :: post) = m.content) := by
  refine ⟨?_, ?_, ?_⟩
  · intro t
    refine ⟨t.messages.map TaskMessage.toDict, ?_, ?_⟩
    · simp [Task.toDict, Json.lookup?, jAssoc]
    · unfold delegateExtract chatExtract
      rw [← List.map_reverse]
      exact findLastAgentDict_map t.messages.reverse
  · intro msgs h
    exact findLastAgentMsg_no_agent msgs.reverse
      (fun m hm => h m (List.mem_reverse.mp hm))
  · intro pre post m hm hpost
    unfold chatExtract
    rw [List.reverse_append, List.reverse_cons, List.append_assoc]
    rw [findLastAgentMsg_append_of_none post.reverse _
      (fun m2 h2 => hpost m2 (List.mem_reverse.mp h2))]
    simp [findLastAgentMsg, hm]

/-- Witness for C8: extraction picks the most recent agent message. -/
theorem c8_witness :
    chatExtract
      [{ role := .user, content := "q", timestamp := 0, metadata := none },
       { role := .agent, content := "a", timestamp := 1, metadata := none }]
      = "a" :=
  c8_extraction_equivalence.2.2
    [{ role := .user, content := "q", timestamp := 0, metadata := none }] []
    { role := .agent, content := "a", timestamp := 1, metadata := none }
    rfl (by simp)

/-- Counterexample for C8 as stated: the fallback literal is
"No response from agent", not "no response from agent". -/
theorem c8_counterexample :
    chatExtract [] ≠ "no response from agent" ∧
    chatExtract [] = "No response from agent" ∧
    delegateExtract [] ≠ some (.str "no response from agent") := by decide

/-- C6: `register_agent` never raises; any transport failure, non-200
status, missing `result`, or unparsable card yields `false` with the
registry unchanged; success stores the card keyed by its `name`
(overwriting any prior entry) and yields `true`. -/
theorem c6_register_agent (fetched : Except String (Nat × Json))
    (registry : List (String × AgentCard)) :
    ((registerAgent fetched registry).1 = false →
       (registerAgent fetched registry).2 = registry) ∧
    (∀ e, fetched = .error e →
       registerAgent fetched registry = (false, registry)) ∧
    (∀ status body, fetched = .ok (status, body) → status ≠ 200 →
       registerAgent fetched registry = (false, registry)) ∧
    (∀ body r card, fetched = .ok (200, body) →
       body.lookup? "result" = some r → AgentCard.fromDict r = some card →
       registerAgent fetched registry =
         (true, updateStr registry card.name card)) := by
  refine ⟨?_, ?_, ?_, ?_⟩
  · rcases fetched with e | ⟨status, body⟩
    · simp [registerAgent]
    · by_cases hs : status = 200
      · subst hs
        cases hr : body.lookup? "result" with
        | none => simp [registerAgent, hr]
        | some r =>
          cases hc : AgentCard.fromDict r with
          | none => simp [registerAgent, hr, hc]
          | some card => simp [registerAgent, hr, hc]
      · simp [registerAgent, hs]
  · rintro e rfl; rfl
  · rintro status body rfl hs; simp [registerAgent, hs]
  · rintro body r card rfl hr hc; simp [registerAgent, hr, hc]

/-- Witness for C6: a failed fetch, and a successful card fetch. -/
theorem c6_witness :
    registerAgent (Except.error "connection refused") [] = (false, []) ∧
    registerAgent
      (Except.ok (200, Json.obj [("result",
        Json.obj [("name", .str "CalculatorAgent"),
                  ("description", .str "calc"),
                  ("url", .str "http://localhost:5001")])])) [] =
      (true, [("CalculatorAgent",
        { name := "CalculatorAgent", description := "calc",
          url := "http://localhost:5001", skills := [], version := "1.0",
          supported_interaction_modes := [.text], metadata := none })]) :=
  ⟨(c6_register_agent (Except.error "connection refused") []).2.1
     "connection refused" rfl,
   (c6_register_agent
      (Except.ok (200, Json.obj [("result",
        Json.obj [("name", .str "CalculatorAgent"),
                  ("description", .str "calc"),
                  ("url", .str "http://localhost:5001")])])) []).2.2.2
     (Json.obj [("result",
        Json.obj [("name", .str "CalculatorAgent"),
                  ("description", .str "calc"),
                  ("url", .str "http://localhost:5001")])])
     (Json.obj [("name", .str "CalculatorAgent"),
                ("description", .str "calc"),
                ("url", .str "http://localhost:5001")])
     { name := "CalculatorAgent", description := "calc",
       url := "http://localhost:5001", skills := [], version := "1.0",
       supported_interaction_modes := [.text], metadata := none }
     rfl (by decide) (by decide)⟩

/-- C10: a `createTask` call whose supplied `task_id` is already in the
store succeeds and replaces the stored task with a fresh `pending` task
with no messages. -/
theorem c10_create_task_overwrites (params : Json) (fresh : String)
    (st : AgentState) (tid : String) (t0 : Task)
    (hid : params.lookup? "task_id" = some (.str tid))
    (_h0 : lookupStr st.tasks tid = some t0) :
    ∃ j st1, createTaskH fresh params st = .ok (j, st1) ∧
      ∃ tNew, lookupStr st1.tasks tid = some tNew ∧
        tNew.status = TaskStatus.pending ∧ tNew.messages = [] := by
  refine ⟨_, _, rfl, ?_⟩
  simp only [hid]
  exact ⟨_, lookupStr_updateStr_self _ _ _, rfl, rfl⟩

/-- C4 (amended: the round trip `from_dict (to_dict x) = x` holds for
every Request, Error and Skill, for every Response not carrying both a
result and an error, and for every TaskMessage/Task/AgentCard whose
metadata — and, for a Task, each message's metadata — is a present value
that is truthy or the empty mapping; a `None` or falsy metadata decodes
as the empty mapping instead, and a response with both fields set loses
its result). Side conditions of the form `≠ some Json.null` only exclude
embedding artifacts with no Python counterpart, since Python conflates a
stored `None` with an absent optional value. -/
theorem c4_roundtrip :
    (∀ r : JSONRPCRequest, r.params ≠ some Json.null →
       JSONRPCRequest.fromDict (JSONRPCRequest.toDict r) = some r) ∧
    (∀ r : JSONRPCResponse, (r.error.isSome = true → r.result = .null) →
       (∀ e, r.error = some e → e.data ≠ some Json.null) →
       JSONRPCResponse.fromDict (JSONRPCResponse.toDict r) = some r) ∧
    (∀ (e : JSONRPCError) (rid : Json), e.data ≠ some Json.null →
       JSONRPCResponse.fromDict
         (JSONRPCResponse.toDict { id := rid, error := some e }) =
         some { id := rid, error := some e }) ∧
    (∀ m : TaskMessage,
       (∃ j, m.metadata = some j ∧ (j.truthy = true ∨ j = .obj [])) →
       TaskMessage.fromDict 0 (TaskMessage.toDict m) = some m) ∧
    (∀ t : Task,
       (∃ j, t.metadata = some j ∧ (j.truthy = true ∨ j = .obj [])) →
       (∀ m ∈ t.messages, ∃ j, m.metadata = some j ∧
          (j.truthy = true ∨ j = .obj [])) →
       Task.fromDict 0 (Task.toDict t) = some t) ∧
    (∀ c : AgentCard,
       (∃ j, c.metadata = some j ∧ (j.truthy = true ∨ j = .obj [])) →
       AgentCard.fromDict (AgentCard.toDict c) = some c) := by
  refine ⟨?_, ?_, ?_, ?_, ?_, ?_⟩
  · exact fun r hp => request_roundtrip r hp
  · exact fun r h1 h2 => response_roundtrip r h1 h2
  · exact fun e rid hd =>
      response_roundtrip { id := rid, error := some e } (fun _ => rfl)
        (fun e2 he2 => by injection he2 with h; exact h ▸ hd)
  · exact fun m ⟨j, hm, hj⟩ => taskMessage_roundtrip m j hm hj
  · exact fun t ⟨j, hm, hj⟩ hmsgs => task_roundtrip t j hm hj hmsgs
  · exact fun c ⟨j, hm, hj⟩ => agentCard_roundtrip c j hm hj

/-- Witness for C4 on concrete values of each of the six shapes. -/
theorem c4_witness :
    JSONRPCRequest.fromDict (JSONRPCRequest.toDict
      { method := "getTask", params := some (.obj [("task_id", .str "t")]),
        id := .num 4 }) =
      some { method := "getTask",
             params := some (.obj [("task_id", .str "t")]), id := .num 4 } ∧
    JSONRPCResponse.fromDict (JSONRPCResponse.toDict
      { id := .num 4, result := .str "ok" }) =
      some { id := .num 4, result := .str "ok" } ∧
    JSONRPCResponse.fromDict (JSONRPCResponse.toDict
      { id := .str "a",
        error := some { code := -32601, message := "nope",
                        data := some (.str "d") } }) =
      some { id := .str "a",
             error := some { code := -32601, message := "nope",
                             data := some (.str "d") } } ∧
    TaskMessage.fromDict 0 (TaskMessage.toDict
      { role := .agent, content := "hi", timestamp := 3,
        metadata := some (.obj [("k", .str "v")]) }) =
      some { role := .agent, content := "hi", timestamp := 3,
             metadata := some (.obj [("k", .str "v")]) } ∧
    Task.fromDict 0 (Task.toDict
      { task_id := "t", status := .completed,
        messages := [{ role := .user, content := "q", timestamp := 1,
                       metadata := some (.obj []) }],
        metadata := some (.obj []), created_at := 0, updated_at := 2 }) =
      some { task_id := "t", status := .completed,
             messages := [{ role := .user, content := "q", timestamp := 1,
                            metadata := some (.obj []) }],
             metadata := some (.obj []), created_at := 0,
             updated_at := 2 } ∧
    AgentCard.fromDict (AgentCard.toDict
      { name := "A", description := "d", url := "u",
        skills := [{ name := "s", description := "sd",
                     parameters := .obj [], interaction_modes := [.text] }],
        version := "1.0", supported_interaction_modes := [.text, .form],
        metadata := some (.obj [("v", .num 1)]) }) =
      some { name := "A", description := "d", url := "u",
             skills := [{ name := "s", description := "sd",
                          parameters := .obj [],
                          interaction_modes := [.text] }],
             version := "1.0",
             supported_interaction_modes := [.text, .form],
             metadata := some (.obj [("v", .num 1)]) } :=
  ⟨c4_roundtrip.1 _ (by decide),
   c4_roundtrip.2.1 _ (by intro h; exact absurd h (by decide))
     (by intro e he; injection he),
   c4_roundtrip.2.2.1 { code := -32601, message := "nope",
                        data := some (.str "d") } (.str "a") (by decide),
   c4_roundtrip.2.2.2.1 _ ⟨_, rfl, Or.inl rfl⟩,
   c4_roundtrip.2.2.2.2.1 _ ⟨_, rfl, Or.inr rfl⟩
     (by intro m hm
         simp at hm
         exact ⟨.obj [], by rw [hm], Or.inr rfl⟩),
   c4_roundtrip.2.2.2.2.2 _ ⟨_, rfl, Or.inl rfl⟩⟩

/-- Counterexample for C4 as stated: a TaskMessage whose metadata is
`None` serializes its metadata as the empty mapping, so decoding its
encoding yields a different value (`metadata = {}`), not the original. -/
theorem c4_counterexample :
    TaskMessage.fromDict 0 (TaskMessage.toDict
      { role := .user, content := "hi", timestamp := 5,
        metadata := none }) ≠
      some { role := .user, content := "hi", timestamp := 5,
             metadata := none } ∧
    TaskMessage.fromDict 0 (TaskMessage.toDict
      { role := .user, content := "hi", timestamp := 5,
        metadata := none }) =
      some { role := .user, content := "hi", timestamp := 5,
             metadata := some (.obj []) } := by decide

/-- C1 (amended: additionally requires the supplied `task_id` to be
non-falsy — a non-empty string — and the params to carry a string
`content` and a valid or absent `role`; otherwise the handler raises
before mutating and the task keeps its prior status and messages): for a
`sendTaskMessage` call on an existing task, the call returns the task,
the final status is `completed` or `failed` according to the domain
handler's outcome, exactly the inbound message plus one outcome message
(agent role on success, system role on failure) are appended, and
`updated_at` does not decrease. -/
theorem c1_send_task_message_lifecycle (handle : DomainHandler)
    (params : Json) (st : AgentState) (tid : String) (t0 : Task)
    (role : MessageRole) (c : String)
    (hid : params.lookup? "task_id" = some (.str tid))
    (hne : tid ≠ "")
    (ht : lookupStr st.tasks tid = some t0)
    (hrole : paramsRole params = some role)
    (hc : params.lookup? "content" = some (.str c))
    (hclk : t0.updated_at ≤ st.clock) :
    ∃ st1 t1, sendTaskMessageH handle params st = .ok (t1.toDict, st1) ∧
      st1.tasks = updateStr st.tasks tid t1 ∧
      lookupStr st1.tasks tid = some t1 ∧
      (t1.status = TaskStatus.completed ∨ t1.status = TaskStatus.failed) ∧
      t1.messages.length = t0.messages.length + 2 ∧
      t0.updated_at ≤ t1.updated_at ∧
      ∃ inb outb, t1.messages = t0.messages ++ [inb, outb] ∧
        inb.role = role ∧ inb.content = c ∧
        ((outb.role = MessageRole.agent ∧ t1.status = TaskStatus.completed ∧
          ∃ r, handle tid inb = .ok r ∧ outb.content = r) ∨
         (outb.role = MessageRole.system ∧ t1.status = TaskStatus.failed ∧
          ∃ e, handle tid inb = .error e)) := by
  simp only [sendTaskMessageH, hid, if_neg hne, ht, hrole, hc, tick]
  cases hh : handle tid
      (TaskMessage.make role c none (params.getOpt "metadata") st.clock) with
  | ok r =>
    refine ⟨_, _, rfl, rfl, lookupStr_updateStr_self _ _ _, Or.inl rfl,
            by simp [Task.add_message], by simp [Task.add_message]; omega,
            ?_⟩
    refine ⟨TaskMessage.make role c none (params.getOpt "metadata") st.clock,
            TaskMessage.make MessageRole.agent r none none (st.clock + 1 + 1),
            by simp [Task.add_message], rfl, rfl,
            Or.inl ⟨rfl, rfl, r, hh, rfl⟩⟩
  | error e =>
    refine ⟨_, _, rfl, rfl, lookupStr_updateStr_self _ _ _, Or.inr rfl,
            by simp [Task.add_message], by simp [Task.add_message]; omega,
            ?_⟩
    refine ⟨TaskMessage.make role c none (params.getOpt "metadata") st.clock,
            TaskMessage.make MessageRole.system
              ("Error processing task: " ++ e) none none (st.clock + 1 + 1),
            by simp [Task.add_message], rfl, rfl,
            Or.inr ⟨rfl, rfl, e, hh⟩⟩

/-- Witness for C1: a successful domain handler completes the task with
two appended messages. -/
theorem c1_witness :
    ∃ st1 t1, sendTaskMessageH (fun _ _ => .ok "pong")
        (.obj [("task_id", .str "t1"), ("content", .str "ping")])
        { tasks := [("t1",
            { task_id := "t1", status := .pending, messages := [],
              metadata := none, created_at := 0, updated_at := 0 })],
          clock := 5 } = .ok (t1.toDict, st1) ∧
      st1.tasks = updateStr
        [("t1", { task_id := "t1", status := .pending, messages := [],
                  metadata := none, created_at := 0, updated_at := 0 })]
        "t1" t1 ∧
      lookupStr st1.tasks "t1" = some t1 ∧
      (t1.status = TaskStatus.completed ∨ t1.status = TaskStatus.failed) ∧
      t1.messages.length = 0 + 2 ∧
      0 ≤ t1.updated_at ∧
      ∃ inb outb, t1.messages = [] ++ [inb, outb] ∧
        inb.role = MessageRole.user ∧ inb.content = "ping" ∧
        ((outb.role = MessageRole.agent ∧ t1.status = TaskStatus.completed ∧
          ∃ r, (fun _ _ => Except.ok "pong" :
                  DomainHandler) "t1" inb = .ok r ∧ outb.content = r) ∨
         (outb.role = MessageRole.system ∧ t1.status = TaskStatus.failed ∧
          ∃ e, (fun _ _ => Except.ok "pong" :
                  DomainHandler) "t1" inb = .error e)) :=
  c1_send_task_message_lifecycle (fun _ _ => .ok "pong")
    (.obj [("task_id", .str "t1"), ("content", .str "ping")])
    { tasks := [("t1",
        { task_id := "t1", status := .pending, messages := [],
          metadata := none, created_at := 0, updated_at := 0 })],
      clock := 5 } "t1"
    { task_id := "t1", status := .pending, messages := [],
      metadata := none, created_at := 0, updated_at := 0 }
    MessageRole.user "ping" rfl (by decide) rfl rfl rfl (by decide)

/-- Counterexample for C1 as stated: on an existing task, a
`sendTaskMessage` whose params lack the `content` key raises before any
mutation — the status stays `pending` and no message is appended, so the
postcondition fails despite the task id naming a stored task. -/
theorem c1_counterexample :
    sendTaskMessageH (fun _ _ => .ok "r") (.obj [("task_id", .str "t1")])
      { tasks := [("t1",
          { task_id := "t1", status := .pending, messages := [],
            metadata := none, created_at := 0, updated_at := 0 })],
        clock := 5 } =
      .error ("KeyError: content",
        { tasks := [("t1",
            { task_id := "t1", status := .pending, messages := [],
              metadata := none, created_at := 0, updated_at := 0 })],
          clock := 5 }) ∧
    TaskStatus.pending ≠ TaskStatus.completed ∧
    TaskStatus.pending ≠ TaskStatus.failed :=
  ⟨rfl, by decide, by decide⟩

/-- C3 helper: `_send_task_message` raises before any mutation when the
task id is missing, falsy, non-string, or not in the store. -/
theorem sendTaskMessage_missing_raises (handle : DomainHandler) (p : Json)
    (st : AgentState)
    (h : ∀ tid, p.lookup? "task_id" = some (.str tid) →
           lookupStr st.tasks tid = none) :
    ∃ e, sendTaskMessageH handle p st = .error (e, st) := by
  unfold sendTaskMessageH
  cases hid : p.lookup? "task_id" with
  | none => exact ⟨_, rfl⟩
  | some j =>
    cases j with
    | str tid =>
      by_cases ht : tid = ""
      · subst ht; exact ⟨_, rfl⟩
      · refine ⟨"Task " ++ tid ++ " not found", ?_⟩
        simp only [if_neg ht, h tid hid]
    | null => exact ⟨_, rfl⟩
    | bool b => exact ⟨_, rfl⟩
    | num n => exact ⟨_, rfl⟩
    | arr xs => exact ⟨_, rfl⟩
    | obj fs => exact ⟨_, rfl⟩

/-- C3: a `sendTaskMessage` whose `task_id` names no task in the store
leaves the store untouched and the dispatcher answers with an error
envelope instead of a result. -/
theorem c3_send_task_message_not_found (handle : DomainHandler)
    (card : AgentCard) (fresh : String) (params : Json) (st : AgentState)
    (rid : Json)
    (h : ∀ tid, params.lookup? "task_id" = some (.str tid) →
           lookupStr st.tasks tid = none) :
    (∃ e, sendTaskMessageH handle params st = .error (e, st)) ∧
    (handleRequest (standardMethods card fresh handle) st
       { method := "sendTaskMessage", params := some params,
         id := rid }).1.error.isSome = true ∧
    (handleRequest (standardMethods card fresh handle) st
       { method := "sendTaskMessage", params := some params,
         id := rid }).2 = st := by
  have hm : lookupStr (standardMethods card fresh handle) "sendTaskMessage"
      = some (sendTaskMessageH handle) := rfl
  refine ⟨sendTaskMessage_missing_raises handle params st h, ?_⟩
  by_cases hp : params.truthy
  · obtain ⟨e, he⟩ := sendTaskMessage_missing_raises handle params st h
    constructor <;> simp [handleRequest, hm, hp, he]
  · obtain ⟨e, he⟩ := sendTaskMessage_missing_raises handle (.obj []) st
      (by intro tid hh; simp [Json.lookup?, jAssoc] at hh)
    constructor <;> simp [handleRequest, hm, hp, he]

/-- Witness for C3 on an empty store. -/
theorem c3_witness :
    (∃ e, sendTaskMessageH (fun _ _ => .ok "r")
        (.obj [("task_id", .str "ghost"), ("content", .str "hi")])
        { tasks := [], clock := 0 } =
      .error (e, { tasks := [], clock := 0 })) ∧
    (handleRequest
       (standardMethods
         { name := "A", description := "", url := "", skills := [],
           version := "1.0", supported_interaction_modes := [.text],
           metadata := none } "f" (fun _ _ => .ok "r"))
       { tasks := [], clock := 0 }
       { method := "sendTaskMessage",
         params := some (.obj [("task_id", .str "ghost"),
                               ("content", .str "hi")]),
         id := .num 3 }).1.error.isSome = true ∧
    (handleRequest
       (standardMethods
         { name := "A", description := "", url := "", skills := [],
           version := "1.0", supported_interaction_modes := [.text],
           metadata := none } "f" (fun _ _ => .ok "r"))
       { tasks := [], clock := 0 }
       { method := "sendTaskMessage",
         params := some (.obj [("task_id", .str "ghost"),
                               ("content", .str "hi")]),
         id := .num 3 }).2 = { tasks := [], clock := 0 } :=
  c3_send_task_message_not_found (fun _ _ => .ok "r")
    { name := "A", description := "", url := "", skills := [],
      version := "1.0", supported_interaction_modes := [.text],
      metadata := none } "f"
    (.obj [("task_id", .str "ghost"), ("content", .str "hi")])
    { tasks := [], clock := 0 } (.num 3)
    (by intro tid hh
        simp [Json.lookup?, jAssoc] at hh
        simp [lookupStr])

/-- C5 (amended: the exception's message lands in the error's `message`
field, `data` stays unset): dispatch contract — unknown method yields
`method_not_found` with the original id; a registered handler is invoked
with the request's params (or an empty mapping when absent), a normal
return becomes a result envelope, and a raise becomes an
`internal_error` envelope with the exception text as `message`, never
propagating. -/
theorem c5_dispatch_contract (methods : List (String × Handler))
    (st : AgentState) (req : JSONRPCRequest) :
    (lookupStr methods req.method = none →
       handleRequest methods st req =
         ({ id := req.id,
            error := some { code := METHOD_NOT_FOUND,
                            message := "Method " ++ req.method ++
                              " not found", data := none } }, st)) ∧
    (∀ h, lookupStr methods req.method = some h → req.params = none →
       (∀ v st1, h (.obj []) st = .ok (v, st1) →
          handleRequest methods st req =
            ({ id := req.id, result := v }, st1)) ∧
       (∀ e st1, h (.obj []) st = .error (e, st1) →
          handleRequest methods st req =
            ({ id := req.id,
               error := some { code := INTERNAL_ERROR, message := e,
                               data := none } }, st1))) ∧
    (∀ h q, lookupStr methods req.method = some h → req.params = some q →
       q.truthy = true →
       (∀ v st1, h q st = .ok (v, st1) →
          handleRequest methods st req =
            ({ id := req.id, result := v }, st1)) ∧
       (∀ e st1, h q st = .error (e, st1) →
          handleRequest methods st req =
            ({ id := req.id,
               error := some { code := INTERNAL_ERROR, message := e,
                               data := none } }, st1))) := by
  refine ⟨?_, ?_, ?_⟩
  · intro hn; simp [handleRequest, hn]
  · intro h hl hp
    constructor
    · intro v st1 hok; simp [handleRequest, hl, hp, hok]
    · intro e st1 herr; simp [handleRequest, hl, hp, herr]
  · intro h q hl hp hq
    constructor
    · intro v st1 hok; simp [handleRequest, hl, hp, hq, hok]
    · intro e st1 herr; simp [handleRequest, hl, hp, hq, herr]

/-- Witness for C5: a raising handler is converted to an internal_error
envelope with the message in `message`. -/
theorem c5_witness :
    handleRequest [("boom", fun _ st => .error ("kaboom", st))]
      { tasks := [], clock := 0 } { method := "boom", id := .num 7 } =
    ({ id := .num 7,
       error := some { code := INTERNAL_ERROR, message := "kaboom",
                       data := none } }, { tasks := [], clock := 0 }) :=
  ((c5_dispatch_contract
      [("boom", fun _ st => .error ("kaboom", st))]
      { tasks := [], clock := 0 }
      { method := "boom", id := .num 7 }).2.1
    (fun _ st => .error ("kaboom", st)) rfl rfl).2 "kaboom"
    { tasks := [], clock := 0 } rfl

/-- Counterexample for C5 as stated: the dispatcher puts the exception
text in the error's `message` field; `data` is `none`, not the message. -/
theorem c5_counterexample :
    ∃ er, (handleRequest [("boom", fun _ st => .error ("kaboom", st))]
        { tasks := [], clock := 0 }
        { method := "boom", id := .num 1 }).1.error = some er ∧
      er.message = "kaboom" ∧ er.data = none :=
  ⟨_, rfl, rfl, rfl⟩

/-- C2 (amended: the exactly-one-of-result/error invariant is enforced at
serialization — every serialized response carries exactly one of the
`result`/`error` keys — and holds for every dispatcher-produced response,
whose `result` is `null` whenever `error` is set; construction itself
does not enforce it). -/
theorem c2_response_invariant :
    (∀ r : JSONRPCResponse,
       (r.toDict.hasKey "error" = true ∧ r.toDict.hasKey "result" = false) ∨
       (r.toDict.hasKey "error" = false ∧ r.toDict.hasKey "result" = true)) ∧
    (∀ (methods : List (String × Handler)) (st : AgentState)
       (req : JSONRPCRequest),
       (handleRequest methods st req).1.error.isSome = true →
       (handleRequest methods st req).1.result = .null) := by
  constructor
  · intro r
    cases he : r.error with
    | some e =>
      left
      constructor <;>
        simp [JSONRPCResponse.toDict, he, Json.hasKey, Json.lookup?, jAssoc]
    | none =>
      right
      constructor <;>
        simp [JSONRPCResponse.toDict, he, Json.hasKey, Json.lookup?, jAssoc]
  · intro methods st req
    simp only [handleRequest]
    split
    · intro _; rfl
    · split
      · intro hcontra; simp at hcontra
      · intro _; rfl

/-- Witness for C2 on a dispatcher error response. -/
theorem c2_witness :
    (handleRequest [] { tasks := [], clock := 0 }
      { method := "nope", id := .null }).1.result = .null :=
  c2_response_invariant.2 [] { tasks := [], clock := 0 }
    { method := "nope", id := .null } rfl

/-- Counterexample for C2 as stated: a response value with both `result`
and `error` set is constructible — nothing enforces the invariant at
construction — and its serialization silently drops the result. -/
theorem c2_counterexample :
    (({ id := .null, result := .str "x",
        error := some { code := -1, message := "m" } } :
        JSONRPCResponse).result ≠ .null ∧
     ({ id := .null, result := .str "x",
        error := some { code := -1, message := "m" } } :
        JSONRPCResponse).error.isSome = true) ∧
    ({ id := .null, result := .str "x",
       error := some { code := -1, message := "m" } } :
       JSONRPCResponse).toDict.hasKey "result" = false := by decide

/-- Witness for C10 on a one-task store. -/
theorem c10_witness :
    ∃ j st1, createTaskH "fresh-id" (.obj [("task_id", .str "t1")])
        { tasks := [("t1",
            { task_id := "t1", status := .completed,
              messages := [{ role := .user, content := "old",
                             timestamp := 1, metadata := none }],
              metadata := none, created_at := 0, updated_at := 1 })],
          clock := 7 } = .ok (j, st1) ∧
      ∃ tNew, lookupStr st1.tasks "t1" = some tNew ∧
        tNew.status = TaskStatus.pending ∧ tNew.messages = [] :=
  c10_create_task_overwrites _ "fresh-id" _ "t1" _ rfl rfl

end A2ADemo
